import Mathlib

/-! The function getUserData of src/api.js.

A shallow embedding of the single function of the repository,

    export async function getUserData(userId) {
        const response = await fetch(`https://jsonplaceholder.typicode.com/users/${userId}`);
        if (!response.ok) {
            throw new Error(`Error: ${response.status}`);
        }
        return response.json();
    }

The transport (`fetch`) and the response object are collaborators supplied from
outside, so they are parameters of the embedding.  An invocation is modelled as
a `Run`: the sequence of interactions with the collaborators it performed,
together with the way the returned promise settled (a value, or a thrown
failure).
-/

namespace UserApi

/-! ## Values -/

/-- A JSON-like JavaScript value: what the decoder hands back, and what a
collaborator may throw.  Numbers are the integer-valued ones. -/
inductive Value where
  | null
  | bool (b : Bool)
  | num (n : Int)
  | str (s : String)
  | arr (items : List Value)
  | obj (fields : List (String × Value))

/-- The argument of `getUserData`: an integer-valued number or a string. -/
inductive UserId where
  | num (n : Int)
  | str (s : String)

/-! ## Printing numbers

A JavaScript Number is a double.  Every integer of magnitude below 2^53 is one
(`Number.isSafeInteger`) and is printed by its decimal digits.  Beyond that
only some integers are Numbers, and the runtime prints the shortest decimal
that reads back as the same Number: positionally below 10^21, with an exponent
from there on. -/

/-- The test `Number.isSafeInteger`: magnitude at most 2^53 - 1. -/
def isSafeInteger (n : Int) : Bool :=
  decide (n.natAbs < 9007199254740992)

/-- The decimal numeral of an integer: its digits, preceded by a minus sign
for a negative one. -/
def decimal (n : Int) : String :=
  if n < 0 then "-" ++ Nat.repr n.natAbs else Nat.repr n.natAbs

/-- The binary exponent of the Number nearest to `m`: the least `e`, counted
up from the given one, with `m / 2 ^ e` below 2^53. -/
def binaryExponent : Nat → Nat → Nat → Nat
  | 0, _, e => e
  | fuel + 1, m, e => if m / 2 ^ e < 2 ^ 53 then e else binaryExponent fuel m (e + 1)

/-- The Number nearest to the natural number `m` (below the overflow to
infinity): 53 significant bits are kept, rounding to nearest, ties to even. -/
def roundToNumber (m : Nat) : Nat :=
  let e := binaryExponent 1024 m 0
  let q := m / 2 ^ e
  let r := m % 2 ^ e
  if 2 ^ e < 2 * r ∨ (2 * r = 2 ^ e ∧ q % 2 = 1) then (q + 1) * 2 ^ e else q * 2 ^ e

/-- The decimal with the fewest significant digits that reads back as the
Number `x`, the nearer one when two of that length do: the multiples of
`10 ^ j` next to `x` are tried for `j` from the given one downwards. -/
def shortestDecimal (x : Nat) : Nat → Nat
  | 0 => x
  | j + 1 =>
    let lo := x / 10 ^ (j + 1) * 10 ^ (j + 1)
    let hi := lo + 10 ^ (j + 1)
    if roundToNumber lo = x then
      if roundToNumber hi = x ∧ hi - x < x - lo then hi else lo
    else if roundToNumber hi = x then hi
    else shortestDecimal x j

/-- The exponent form of a numeral of more than 21 digits: the first
significant digit, the further ones after a point, then `e+` and the
exponent. -/
def exponential (v : Nat) : String :=
  let digits := Nat.toDigits 10 v
  match (digits.reverse.dropWhile (fun c => c = '0')).reverse with
  | [] => "0"
  | [d] => String.mk [d] ++ "e+" ++ Nat.repr (digits.length - 1)
  | d :: rest => String.mk (d :: '.' :: rest) ++ "e+" ++ Nat.repr (digits.length - 1)

/-- The runtime's printing of the Number nearest to a natural number that is
not a safe integer.  From 2^1024 - 2^970 on, that is from (2^54 - 1) * 2^970
on, the nearest Number is infinity. -/
def printLarge (m : Nat) : String :=
  if 2 ^ 54 - 1 ≤ m >>> 970 then "Infinity"
  else
    let x := roundToNumber m
    let v := shortestDecimal x (Nat.toDigits 10 x).length
    if v < 10 ^ 21 then Nat.repr v else exponential v

/-- The runtime's `ToString` on an integer-valued number.  A safe integer is
printed by its decimal digits.  A larger integer stands for the Number nearest
to it, as a numeric literal does, and is printed as the runtime prints that
Number: 2^64 as 18446744073709552000, 10^21 as 1e+21. -/
def numberToString (n : Int) : String :=
  if isSafeInteger n then decimal n
  else if n < 0 then "-" ++ printLarge n.natAbs
  else printLarge n.natAbs

/-! ## Identifiers and statuses in a template literal -/

/-- What a template literal substitutes for the identifier: a number is
printed, a string is taken as it is. -/
def UserId.toString : UserId → String
  | .num n => numberToString n
  | .str s => s

/-- What a template literal substitutes for `response.status`: the number
printed, or the text `undefined` when the response has no such member. -/
def statusToString : Option Int → String
  | some s => numberToString s
  | none => "undefined"

/-! ## Failures, responses, transport -/

/-- What an invocation can fail with.  An object made by `new Error` inside
`getUserData` is a fresh object, hence never identical to a value that a
collaborator threw; the constructors keep the two apart. -/
inductive Thrown where
  /-- a value thrown (or a promise rejected) by a collaborator, passed on as it is -/
  | raised (e : Value)
  /-- the object `new Error(message)` constructed by `getUserData` -/
  | error (message : String)
  /-- the runtime's `TypeError`, raised on calling a member that is not a function -/
  | typeError (message : String)

/-- The response object as `getUserData` uses it: the `ok` flag, the `status`
member (absent in the success test) and the `json` method (absent in the
failure test).  A present `json` either yields a decoded value or fails. -/
structure Response where
  ok : Bool
  status : Option Int
  json : Option (Except Value Value)

/-- The transport: for a URL, either a failure (no response) or a response. -/
abbrev Fetch := String → Except Value Response

/-! ## Runs -/

/-- One interaction of `getUserData` with its collaborators. -/
inductive Step where
  | fetch (url : String)
  | readOk
  | readStatus
  | json
  deriving DecidableEq

/-- An invocation: the interactions performed, in order, and how it settled. -/
structure Run (α : Type) where
  trace : List Step
  outcome : Except Thrown α

/-- Sequencing: a failure of the first part ends the run. -/
def Run.bind {α β : Type} (m : Run α) (f : α → Run β) : Run β :=
  match m.outcome with
  | .error e => ⟨m.trace, .error e⟩
  | .ok a => ⟨m.trace ++ (f a).trace, (f a).outcome⟩

instance : Monad Run where
  pure a := ⟨[], .ok a⟩
  bind := Run.bind

/-- The `throw` statement. -/
def Run.raise {α : Type} (e : Thrown) : Run α := ⟨[], .error e⟩

/-- The awaited call `await fetch(url)`: one request; a transport failure is
thrown at the `await`. -/
def awaitFetch (fetch : Fetch) (url : String) : Run Response :=
  ⟨[.fetch url], match fetch url with
    | .error e => .error (.raised e)
    | .ok response => .ok response⟩

/-- The property read `response.ok`. -/
def Response.getOk (response : Response) : Run Bool :=
  ⟨[.readOk], .ok response.ok⟩

/-- The property read `response.status`. -/
def Response.getStatus (response : Response) : Run (Option Int) :=
  ⟨[.readStatus], .ok response.status⟩

/-- The call `response.json()`, whose result settles the returned promise. With
no `json` member nothing is invoked and the runtime raises a `TypeError`. -/
def Response.callJson (response : Response) : Run Value :=
  match response.json with
  | none => ⟨[], .error (.typeError "response.json is not a function")⟩
  | some (.error e) => ⟨[.json], .error (.raised e)⟩
  | some (.ok v) => ⟨[.json], .ok v⟩

/-! ## The function -/

/-- The template literal of the request URL. -/
def userUrl (userId : UserId) : String :=
  "https://jsonplaceholder.typicode.com/users/" ++ userId.toString

/-- The function `getUserData` of src/api.js. -/
def getUserData (fetch : Fetch) (userId : UserId) : Run Value := do
  let response ← awaitFetch fetch (userUrl userId)
  let ok ← response.getOk
  if !ok then
    let status ← response.getStatus
    Run.raise (.error ("Error: " ++ statusToString status))
  else
    response.callJson

/-! ## Observations -/

/-- The `message` member of a thrown value, when it has one that is a string. -/
def Thrown.message : Thrown → Option String
  | .raised (.obj fields) =>
    match fields.lookup "message" with
    | some (.str m) => some m
    | _ => none
  | .raised _ => none
  | .error m => some m
  | .typeError m => some m

/-- The message of the failure of a run; none for a run that returned. -/
def Run.failureMessage {α : Type} (r : Run α) : Option String :=
  match r.outcome with
  | .error e => e.message
  | .ok _ => none

/-- The transport requests among the interactions of a run. -/
def requests : List Step → List String
  | [] => []
  | .fetch url :: rest => url :: requests rest
  | _ :: rest => requests rest

/-- Reading a decimal numeral: the number its digits denote. -/
def readDigits (cs : List Char) : Nat :=
  cs.foldl (fun acc c => 10 * acc + (c.toNat - 48)) 0

/-- Reading a printed integer back. -/
def readNumber (cs : List Char) : Int :=
  match cs with
  | '-' :: rest => - (readDigits rest : Int)
  | _ => (readDigits cs : Int)

/-- Reading the status code back from a message of the form `Error: <status>`. -/
def statusOfMessage (message : String) : Int :=
  readNumber (message.data.drop 7)

/-! ## Sample collaborators -/

/-- The response of the success test: `ok` true, `json` yields the user. -/
def sampleUser : Value := .obj [("id", .num 1), ("name", .str "Juan Perez")]

/-- A transport that answers every request with the given response. -/
def respondWith (response : Response) : Fetch := fun _ => .ok response

/-- A transport that fails every request with the given failure. -/
def failWith (e : Value) : Fetch := fun _ => .error e

/-- A connection-refused failure, as a transport may produce it. -/
def connectionRefused : Value :=
  .obj [("name", .str "FetchError"), ("message", .str "connect ECONNREFUSED"),
    ("code", .str "ECONNREFUSED")]


/-! ## Printing and reading numbers -/

theorem digitChar_ne_minus (k : Nat) (h : k < 10) : Nat.digitChar k ≠ '-' := by
  interval_cases k <;> decide

theorem digitChar_value (k : Nat) (h : k < 10) : (Nat.digitChar k).toNat - 48 = k := by
  interval_cases k <;> rfl

theorem foldl_toDigitsCore (fuel : Nat) :
    ∀ (n : Nat) (ds : List Char), n < fuel →
      (Nat.toDigitsCore 10 fuel n ds).foldl (fun acc c => 10 * acc + (c.toNat - 48)) 0
        = ds.foldl (fun acc c => 10 * acc + (c.toNat - 48)) n := by
  induction fuel with
  | zero => intro n ds h; omega
  | succ fuel ih =>
    intro n ds h
    have hd : (Nat.digitChar (n % 10)).toNat - 48 = n % 10 :=
      digitChar_value (n % 10) (Nat.mod_lt n (by decide))
    unfold Nat.toDigitsCore
    by_cases h0 : n / 10 = 0
    · simp only [h0, if_true, List.foldl_cons, hd]
      congr 1
      omega
    · simp only [h0, if_false]
      rw [ih (n / 10) _ (by omega)]
      simp only [List.foldl_cons, hd]
      congr 1
      omega

theorem readDigits_toDigits (n : Nat) : readDigits (Nat.toDigits 10 n) = n := by
  unfold readDigits Nat.toDigits
  rw [foldl_toDigitsCore (n + 1) n [] (Nat.lt_succ_self n)]
  rfl

theorem toDigitsCore_head (fuel : Nat) :
    ∀ (n : Nat) (ds : List Char), 0 < fuel →
      ∃ c rest, Nat.toDigitsCore 10 fuel n ds = c :: rest ∧ c ≠ '-' := by
  induction fuel with
  | zero => intro n ds h; omega
  | succ fuel ih =>
    intro n ds _
    unfold Nat.toDigitsCore
    by_cases h0 : n / 10 = 0
    · exact ⟨Nat.digitChar (n % 10), ds, by simp only [h0, if_true],
        digitChar_ne_minus _ (Nat.mod_lt n (by decide))⟩
    · simp only [h0, if_false]
      cases fuel with
      | zero => exact ⟨Nat.digitChar (n % 10), ds, by simp only [Nat.toDigitsCore],
          digitChar_ne_minus _ (Nat.mod_lt n (by decide))⟩
      | succ fuel => exact ih (n / 10) _ (Nat.succ_pos fuel)

theorem readNumber_toDigits (n : Nat) : readNumber (Nat.toDigits 10 n) = (n : Int) := by
  obtain ⟨c, rest, hc, hne⟩ := toDigitsCore_head (n + 1) n [] (Nat.succ_pos n)
  have hr := readDigits_toDigits n
  unfold Nat.toDigits at hr ⊢
  rw [hc] at hr ⊢
  unfold readNumber
  split
  · rename_i heq
    simp only [List.cons.injEq] at heq
    exact absurd heq.1 hne
  · rw [hr]

theorem readNumber_decimal (n : Int) : readNumber (decimal n).data = n := by
  unfold decimal
  by_cases h : n < 0
  · simp only [h, if_true, String.data_append, Nat.repr, List.asString]
    show readNumber ('-' :: Nat.toDigits 10 n.natAbs) = n
    simp only [readNumber, readDigits_toDigits]
    omega
  · simp only [h, if_false, Nat.repr, List.asString]
    rw [readNumber_toDigits]
    omega

theorem statusOfMessage_error (s : Int) : statusOfMessage ("Error: " ++ decimal s) = s := by
  unfold statusOfMessage
  rw [String.data_append]
  exact readNumber_decimal s

theorem numberToString_of_safe (n : Int) (hn : isSafeInteger n = true) :
    numberToString n = decimal n := by
  simp only [numberToString, hn, if_true]

theorem statusToString_of_safe (s : Int) (hs : isSafeInteger s = true) :
    statusToString (some s) = decimal s :=
  numberToString_of_safe s hs

/-! ## The three ways through `getUserData` -/

theorem getUserData_of_fetch_error (fetch : Fetch) (userId : UserId) (e : Value)
    (hfetch : fetch (userUrl userId) = .error e) :
    getUserData fetch userId = ⟨[.fetch (userUrl userId)], .error (.raised e)⟩ := by
  simp only [getUserData, bind, Run.bind, awaitFetch, hfetch]

theorem getUserData_of_not_ok (fetch : Fetch) (userId : UserId) (response : Response)
    (hfetch : fetch (userUrl userId) = .ok response) (hok : response.ok = false) :
    getUserData fetch userId
      = ⟨[.fetch (userUrl userId), .readOk, .readStatus],
          .error (.error ("Error: " ++ statusToString response.status))⟩ := by
  simp [getUserData, bind, Run.bind, awaitFetch, hfetch, Response.getOk, Response.getStatus,
    Run.raise, hok]

theorem getUserData_of_ok (fetch : Fetch) (userId : UserId) (response : Response)
    (hfetch : fetch (userUrl userId) = .ok response) (hok : response.ok = true) :
    getUserData fetch userId
      = ⟨.fetch (userUrl userId) :: .readOk :: response.callJson.trace,
          response.callJson.outcome⟩ := by
  simp [getUserData, bind, Run.bind, awaitFetch, hfetch, Response.getOk, hok]

theorem callJson_of_value (response : Response) (v : Value)
    (hjson : response.json = some (.ok v)) : response.callJson = ⟨[.json], .ok v⟩ := by
  simp only [Response.callJson, hjson]

theorem callJson_of_failure (response : Response) (e : Value)
    (hjson : response.json = some (.error e)) :
    response.callJson = ⟨[.json], .error (.raised e)⟩ := by
  simp only [Response.callJson, hjson]

theorem callJson_requests (response : Response) : requests response.callJson.trace = [] := by
  unfold Response.callJson
  split <;> rfl

/-! ## The contract -/

/-- C1: when the transport call for the identifier completes with a response
whose ok flag is true and whose JSON-decode step yields `v`, `getUserData`
returns, and what it returns is exactly `v`. -/
theorem getUserData_returns_decoded_value (fetch : Fetch) (userId : UserId)
    (response : Response) (v : Value)
    (hfetch : fetch (userUrl userId) = .ok response) (hok : response.ok = true)
    (hjson : response.json = some (.ok v)) :
    (getUserData fetch userId).outcome = .ok v := by
  rw [getUserData_of_ok fetch userId response hfetch hok, callJson_of_value response v hjson]

/-- The success test of the repository: `ok` true, `json` yielding the user
with id 1 and name Juan Perez; `getUserData(1)` returns that user. -/
theorem getUserData_returns_decoded_value_witness :
    (getUserData (respondWith ⟨true, none, some (.ok sampleUser)⟩) (.num 1)).outcome
      = .ok (.obj [("id", .num 1), ("name", .str "Juan Perez")]) :=
  getUserData_returns_decoded_value (respondWith ⟨true, none, some (.ok sampleUser)⟩) (.num 1)
    ⟨true, none, some (.ok sampleUser)⟩ sampleUser rfl rfl rfl

/-- C2: when the transport call completes with a response whose ok flag is
false and whose status is the integer `s` (a safe integer, as every status code
is), `getUserData` fails, with an error constructed by it whose message is
exactly `Error: ` followed by the decimal digits of `s`. -/
theorem getUserData_fails_with_status (fetch : Fetch) (userId : UserId)
    (response : Response) (s : Int)
    (hfetch : fetch (userUrl userId) = .ok response) (hok : response.ok = false)
    (hstatus : response.status = some s) (hs : isSafeInteger s = true) :
    (getUserData fetch userId).outcome = .error (.error ("Error: " ++ decimal s))
      ∧ (getUserData fetch userId).failureMessage = some ("Error: " ++ decimal s) := by
  rw [getUserData_of_not_ok fetch userId response hfetch hok, hstatus,
    statusToString_of_safe s hs]
  exact ⟨rfl, rfl⟩

/-- The failure test of the repository (status 404), and status 500: the
messages are `Error: 404` and `Error: 500`. -/
theorem getUserData_fails_with_status_witness :
    (getUserData (respondWith ⟨false, some 404, none⟩) (.num 1)).failureMessage
        = some "Error: 404"
      ∧ (getUserData (respondWith ⟨false, some 500, none⟩) (.num 1)).failureMessage
        = some "Error: 500" :=
  ⟨(getUserData_fails_with_status (respondWith ⟨false, some 404, none⟩) (.num 1)
      ⟨false, some 404, none⟩ 404 rfl rfl rfl rfl).2,
   (getUserData_fails_with_status (respondWith ⟨false, some 500, none⟩) (.num 1)
      ⟨false, some 500, none⟩ 500 rfl rfl rfl rfl).2⟩

/-- C3: whatever the identifier and whatever the transport does (it fails, it
answers with a response that is not ok, it answers with an ok response whose
decoding succeeds or fails), one invocation of `getUserData` issues exactly one
transport request. -/
theorem getUserData_one_request (fetch : Fetch) (userId : UserId) :
    (requests (getUserData fetch userId).trace).length = 1 := by
  cases hfetch : fetch (userUrl userId) with
  | error e => rw [getUserData_of_fetch_error fetch userId e hfetch]; rfl
  | ok response =>
    cases hok : response.ok with
    | false => rw [getUserData_of_not_ok fetch userId response hfetch hok]; rfl
    | true =>
      rw [getUserData_of_ok fetch userId response hfetch hok]
      show (userUrl userId :: requests response.callJson.trace).length = 1
      rw [callJson_requests]
      rfl

/-- C4, as the code has it: the request that `getUserData` hands to the
transport is its first step, taken for every identifier (none is rejected
before it), it is the only request, and its URL is the fixed prefix followed by
the rendering of the identifier: the decimal digits of a safe integer `n`, a
string `s` unchanged. -/
theorem getUserData_request_url (fetch : Fetch) (n : Int) (s : String)
    (hn : isSafeInteger n = true) :
    requests (getUserData fetch (.num n)).trace
        = ["https://jsonplaceholder.typicode.com/users/" ++ decimal n]
      ∧ requests (getUserData fetch (.str s)).trace
        = ["https://jsonplaceholder.typicode.com/users/" ++ s]
      ∧ (∀ userId : UserId, ∃ rest, (getUserData fetch userId).trace
        = .fetch ("https://jsonplaceholder.typicode.com/users/" ++ userId.toString) :: rest
          ∧ requests rest = []) := by
  have key : ∀ userId : UserId, ∃ rest, (getUserData fetch userId).trace
      = .fetch ("https://jsonplaceholder.typicode.com/users/" ++ userId.toString) :: rest
        ∧ requests rest = [] := by
    intro userId
    cases hfetch : fetch (userUrl userId) with
    | error e => exact ⟨[], by rw [getUserData_of_fetch_error fetch userId e hfetch]; rfl, rfl⟩
    | ok response =>
      cases hok : response.ok with
      | false =>
        exact ⟨[.readOk, .readStatus],
          by rw [getUserData_of_not_ok fetch userId response hfetch hok]; rfl, rfl⟩
      | true =>
        exact ⟨.readOk :: response.callJson.trace,
          by rw [getUserData_of_ok fetch userId response hfetch hok]; rfl,
          callJson_requests response⟩
  refine ⟨?_, ?_, key⟩
  · obtain ⟨rest, htrace, hrest⟩ := key (.num n)
    rw [htrace]
    show _ :: requests rest = _
    rw [hrest]
    show [_ ++ numberToString n] = _
    rw [numberToString_of_safe n hn]
  · obtain ⟨rest, htrace, hrest⟩ := key (.str s)
    rw [htrace]
    show _ :: requests rest = _
    rw [hrest]
    rfl

/-- The identifier 1 of the tests, a negative identifier and a string with a
blank and a slash: the URLs end in `1`, in `-42` and in the string as it is. -/
theorem getUserData_request_url_witness :
    requests (getUserData (failWith connectionRefused) (.num 1)).trace
        = ["https://jsonplaceholder.typicode.com/users/1"]
      ∧ requests (getUserData (failWith connectionRefused) (.num (-42))).trace
        = ["https://jsonplaceholder.typicode.com/users/-42"]
      ∧ requests (getUserData (failWith connectionRefused) (.str " a/b")).trace
        = ["https://jsonplaceholder.typicode.com/users/ a/b"] :=
  ⟨(getUserData_request_url (failWith connectionRefused) 1 " a/b" rfl).1,
   (getUserData_request_url (failWith connectionRefused) (-42) " a/b" (by decide)).1,
   (getUserData_request_url (failWith connectionRefused) 1 " a/b" rfl).2.1⟩

/-- C4 as stated fails for integers beyond the safe ones: for the identifier
10^21 the URL ends in `1e+21`, and for 2^64 in `18446744073709552000`; neither
is the identifier's decimal digits. -/
theorem getUserData_request_url_counterexample :
    requests (getUserData (failWith connectionRefused)
          (.num 1000000000000000000000)).trace
        = ["https://jsonplaceholder.typicode.com/users/1e+21"]
      ∧ requests (getUserData (failWith connectionRefused)
          (.num 1000000000000000000000)).trace
        ≠ ["https://jsonplaceholder.typicode.com/users/" ++ decimal 1000000000000000000000]
      ∧ requests (getUserData (failWith connectionRefused)
          (.num 18446744073709551616)).trace
        = ["https://jsonplaceholder.typicode.com/users/18446744073709552000"]
      ∧ requests (getUserData (failWith connectionRefused)
          (.num 18446744073709551616)).trace
        ≠ ["https://jsonplaceholder.typicode.com/users/" ++ decimal 18446744073709551616] := by
  refine ⟨by rfl, by decide, by rfl, by decide⟩

/-- C5: when the transport call completes with a response whose ok flag is
true and whose JSON-decode step fails with `e`, `getUserData` fails with that
same `e`; its failure is not an error constructed by `getUserData`, whatever
the message. -/
theorem getUserData_decode_failure_propagates (fetch : Fetch) (userId : UserId)
    (response : Response) (e : Value)
    (hfetch : fetch (userUrl userId) = .ok response) (hok : response.ok = true)
    (hjson : response.json = some (.error e)) :
    (getUserData fetch userId).outcome = .error (.raised e)
      ∧ ∀ message : String, (getUserData fetch userId).outcome ≠ .error (.error message) := by
  rw [getUserData_of_ok fetch userId response hfetch hok, callJson_of_failure response e hjson]
  refine ⟨rfl, fun message h => ?_⟩
  cases h

/-- An ok response with status 200 whose decoding fails with a syntax error:
`getUserData(1)` fails with that syntax error, not with `Error: 200`. -/
theorem getUserData_decode_failure_propagates_witness :
    (getUserData (respondWith ⟨true, some 200, some (.error (.str "SyntaxError"))⟩)
        (.num 1)).outcome = .error (.raised (.str "SyntaxError"))
      ∧ (getUserData (respondWith ⟨true, some 200, some (.error (.str "SyntaxError"))⟩)
        (.num 1)).outcome ≠ .error (.error "Error: 200") :=
  ⟨(getUserData_decode_failure_propagates
      (respondWith ⟨true, some 200, some (.error (.str "SyntaxError"))⟩) (.num 1)
      ⟨true, some 200, some (.error (.str "SyntaxError"))⟩ (.str "SyntaxError") rfl rfl rfl).1,
   (getUserData_decode_failure_propagates
      (respondWith ⟨true, some 200, some (.error (.str "SyntaxError"))⟩) (.num 1)
      ⟨true, some 200, some (.error (.str "SyntaxError"))⟩ (.str "SyntaxError") rfl rfl rfl).2
      "Error: 200"⟩

/-- C6: when the transport request itself fails with `e`, `getUserData` fails
with that same `e`, and the request is all it did: the ok flag is not read and
the JSON-decode step is not invoked. -/
theorem getUserData_transport_failure_propagates (fetch : Fetch) (userId : UserId) (e : Value)
    (hfetch : fetch (userUrl userId) = .error e) :
    (getUserData fetch userId).outcome = .error (.raised e)
      ∧ (getUserData fetch userId).trace = [.fetch (userUrl userId)]
      ∧ Step.readOk ∉ (getUserData fetch userId).trace
      ∧ Step.json ∉ (getUserData fetch userId).trace := by
  rw [getUserData_of_fetch_error fetch userId e hfetch]
  exact ⟨rfl, rfl, by simp, by simp⟩

/-- A transport that refuses the connection: `getUserData(1)` fails with the
transport's own failure after the one request. -/
theorem getUserData_transport_failure_propagates_witness :
    (getUserData (failWith connectionRefused) (.num 1)).outcome
        = .error (.raised connectionRefused)
      ∧ (getUserData (failWith connectionRefused) (.num 1)).trace
        = [.fetch "https://jsonplaceholder.typicode.com/users/1"] :=
  ⟨(getUserData_transport_failure_propagates (failWith connectionRefused) (.num 1)
      connectionRefused rfl).1,
   (getUserData_transport_failure_propagates (failWith connectionRefused) (.num 1)
      connectionRefused rfl).2.1⟩

/-- C7: for a response whose ok flag is false the JSON-decode operation is
never invoked, and the whole run (steps and failure) is the same for any two
such responses of equal status, whatever their decode step would do or whether
they have one; the error is made of the status alone. -/
theorem getUserData_not_ok_never_decodes (fetch₁ fetch₂ : Fetch) (userId : UserId)
    (response₁ response₂ : Response)
    (hfetch₁ : fetch₁ (userUrl userId) = .ok response₁)
    (hfetch₂ : fetch₂ (userUrl userId) = .ok response₂)
    (hok₁ : response₁.ok = false) (hok₂ : response₂.ok = false)
    (hstatus : response₁.status = response₂.status) :
    Step.json ∉ (getUserData fetch₁ userId).trace
      ∧ getUserData fetch₁ userId = getUserData fetch₂ userId
      ∧ (getUserData fetch₁ userId).outcome
        = .error (.error ("Error: " ++ statusToString response₁.status)) := by
  rw [getUserData_of_not_ok fetch₁ userId response₁ hfetch₁ hok₁,
    getUserData_of_not_ok fetch₂ userId response₂ hfetch₂ hok₂, hstatus]
  exact ⟨by simp, rfl, rfl⟩

/-- The response of the failure test, which has no `json` member, against
responses of the same status whose decoding would succeed or would fail. -/
theorem getUserData_not_ok_never_decodes_witness :
    getUserData (respondWith ⟨false, some 404, none⟩) (.num 1)
        = getUserData (respondWith ⟨false, some 404, some (.ok sampleUser)⟩) (.num 1)
      ∧ getUserData (respondWith ⟨false, some 404, none⟩) (.num 1)
        = getUserData (respondWith ⟨false, some 404, some (.error (.str "SyntaxError"))⟩)
            (.num 1)
      ∧ Step.json ∉ (getUserData (respondWith ⟨false, some 404, none⟩) (.num 1)).trace :=
  ⟨(getUserData_not_ok_never_decodes (respondWith ⟨false, some 404, none⟩)
      (respondWith ⟨false, some 404, some (.ok sampleUser)⟩) (.num 1)
      ⟨false, some 404, none⟩ ⟨false, some 404, some (.ok sampleUser)⟩
      rfl rfl rfl rfl rfl).2.1,
   (getUserData_not_ok_never_decodes (respondWith ⟨false, some 404, none⟩)
      (respondWith ⟨false, some 404, some (.error (.str "SyntaxError"))⟩) (.num 1)
      ⟨false, some 404, none⟩ ⟨false, some 404, some (.error (.str "SyntaxError"))⟩
      rfl rfl rfl rfl rfl).2.1,
   (getUserData_not_ok_never_decodes (respondWith ⟨false, some 404, none⟩)
      (respondWith ⟨false, some 404, none⟩) (.num 1)
      ⟨false, some 404, none⟩ ⟨false, some 404, none⟩ rfl rfl rfl rfl rfl).1⟩

/-! ## Behaviour -/

/-- C8: the path is decided by the ok flag alone, never by the status: with ok
true the run settles as the decode step does (so a decoded value is returned)
whatever the status is or whether there is one, and with ok false it fails with
message `Error: ` followed by the status, whatever the status is. -/
theorem getUserData_path_decided_by_ok (fetch : Fetch) (userId : UserId) (response : Response)
    (hfetch : fetch (userUrl userId) = .ok response) :
    (response.ok = true →
        (getUserData fetch userId).outcome = response.callJson.outcome
          ∧ ∀ v : Value, response.json = some (.ok v) →
              (getUserData fetch userId).outcome = .ok v)
      ∧ (response.ok = false →
          ∀ s : Int, response.status = some s →
            (getUserData fetch userId).failureMessage
              = some ("Error: " ++ numberToString s)) := by
  refine ⟨fun hok => ?_, fun hok s hstatus => ?_⟩
  · rw [getUserData_of_ok fetch userId response hfetch hok]
    refine ⟨rfl, fun v hjson => ?_⟩
    rw [callJson_of_value response v hjson]
  · rw [getUserData_of_not_ok fetch userId response hfetch hok, hstatus]
    rfl

/-- An ok response of status 500 and one without a status both return the
decoded user; a response that is not ok fails with `Error: 200` although its
status is 200. -/
theorem getUserData_path_decided_by_ok_witness :
    (getUserData (respondWith ⟨true, some 500, some (.ok sampleUser)⟩) (.num 1)).outcome
        = .ok sampleUser
      ∧ (getUserData (respondWith ⟨true, none, some (.ok sampleUser)⟩) (.num 1)).outcome
        = .ok sampleUser
      ∧ (getUserData (respondWith ⟨false, some 200, some (.ok sampleUser)⟩)
          (.num 1)).failureMessage = some "Error: 200" :=
  ⟨((getUserData_path_decided_by_ok (respondWith ⟨true, some 500, some (.ok sampleUser)⟩)
      (.num 1) ⟨true, some 500, some (.ok sampleUser)⟩ rfl).1 rfl).2 sampleUser rfl,
   ((getUserData_path_decided_by_ok (respondWith ⟨true, none, some (.ok sampleUser)⟩)
      (.num 1) ⟨true, none, some (.ok sampleUser)⟩ rfl).1 rfl).2 sampleUser rfl,
   (getUserData_path_decided_by_ok (respondWith ⟨false, some 200, some (.ok sampleUser)⟩)
      (.num 1) ⟨false, some 200, some (.ok sampleUser)⟩ rfl).2 rfl 200 rfl⟩

/-- C9: for a transport whose ok responses have a `json` method,
`getUserData` returns `v` exactly when the transport request succeeds, the
response's ok flag is true and the JSON-decode step yields `v`; it fails with
`t` exactly when `t` is the transport's failure, or the response is not ok and
`t` is the error `Error: <status>` constructed by `getUserData`, or the
response is ok and `t` is the failure of its decoder.  When the three
conditions for a value are not met it fails: there is no other value. -/
theorem getUserData_outcome_characterised (fetch : Fetch) (userId : UserId)
    (hjson : ∀ response, fetch (userUrl userId) = .ok response → response.ok = true →
      response.json ≠ none) :
    (∀ v : Value, (getUserData fetch userId).outcome = .ok v ↔
        ∃ response, fetch (userUrl userId) = .ok response ∧ response.ok = true
          ∧ response.json = some (.ok v))
      ∧ (∀ t : Thrown, (getUserData fetch userId).outcome = .error t ↔
          (∃ e, fetch (userUrl userId) = .error e ∧ t = .raised e)
          ∨ (∃ response, fetch (userUrl userId) = .ok response ∧ response.ok = false
              ∧ t = .error ("Error: " ++ statusToString response.status))
          ∨ (∃ response e, fetch (userUrl userId) = .ok response ∧ response.ok = true
              ∧ response.json = some (.error e) ∧ t = .raised e))
      ∧ ((¬ ∃ response v, fetch (userUrl userId) = .ok response ∧ response.ok = true
              ∧ response.json = some (.ok v))
          → ∃ t, (getUserData fetch userId).outcome = .error t) := by
  have hvalue : ∀ v : Value, (getUserData fetch userId).outcome = .ok v ↔
      ∃ response, fetch (userUrl userId) = .ok response ∧ response.ok = true
        ∧ response.json = some (.ok v) := by
    intro v
    cases hfetch : fetch (userUrl userId) with
    | error e =>
      rw [getUserData_of_fetch_error fetch userId e hfetch]
      simp
    | ok response =>
      cases hok : response.ok with
      | false =>
        rw [getUserData_of_not_ok fetch userId response hfetch hok]
        simp [hok]
      | true =>
        rw [getUserData_of_ok fetch userId response hfetch hok]
        simp only [Except.ok.injEq, exists_eq_left', hok, true_and]
        unfold Response.callJson
        cases hj : response.json with
        | none => simp
        | some result => cases result <;> simp
  refine ⟨hvalue, fun t => ?_, fun hno => ?_⟩
  · cases hfetch : fetch (userUrl userId) with
    | error e =>
      rw [getUserData_of_fetch_error fetch userId e hfetch]
      constructor
      · intro h
        injection h with h
        exact Or.inl ⟨e, rfl, h.symm⟩
      · rintro (⟨e', he, rfl⟩ | ⟨response, hr, _⟩ | ⟨response, e', hr, _⟩)
        · injection he with he
          rw [he]
        · cases hr
        · cases hr
    | ok response =>
      cases hok : response.ok with
      | false =>
        rw [getUserData_of_not_ok fetch userId response hfetch hok]
        constructor
        · intro h
          injection h with h
          exact Or.inr (Or.inl ⟨response, rfl, hok, h.symm⟩)
        · rintro (⟨e, he, _⟩ | ⟨response', hr, _, rfl⟩ | ⟨response', e, hr, hok', _⟩)
          · cases he
          · injection hr with hr
            rw [hr]
          · injection hr with hr
            rw [← hr, hok] at hok'
            cases hok'
      | true =>
        rw [getUserData_of_ok fetch userId response hfetch hok]
        cases hj : response.json with
        | none => exact absurd hj (hjson response hfetch hok)
        | some result =>
          cases result with
          | error e =>
            rw [callJson_of_failure response e hj]
            constructor
            · intro h
              injection h with h
              exact Or.inr (Or.inr ⟨response, e, rfl, hok, hj, h.symm⟩)
            · rintro (⟨e', he, _⟩ | ⟨response', hr, hok', _⟩
                | ⟨response', e', hr, _, hj', rfl⟩)
              · cases he
              · injection hr with hr
                rw [← hr, hok] at hok'
                cases hok'
              · injection hr with hr
                rw [← hr, hj] at hj'
                injection hj' with hj'
                injection hj' with hj'
                rw [hj']
          | ok v =>
            rw [callJson_of_value response v hj]
            constructor
            · intro h
              cases h
            · rintro (⟨e', he, _⟩ | ⟨response', hr, hok', _⟩
                | ⟨response', e', hr, _, hj', _⟩)
              · cases he
              · injection hr with hr
                rw [← hr, hok] at hok'
                cases hok'
              · injection hr with hr
                rw [← hr, hj] at hj'
                injection hj' with hj'
                cases hj'
  · cases hout : (getUserData fetch userId).outcome with
    | error t => exact ⟨t, rfl⟩
    | ok v =>
      obtain ⟨response, h⟩ := (hvalue v).mp hout
      exact absurd ⟨response, v, h⟩ hno

/-- An ok response whose decoder fails with a syntax error: the run returns no
value, and fails with that syntax error and with nothing else. -/
theorem getUserData_outcome_characterised_witness :
    (∀ v : Value,
        (getUserData (respondWith ⟨true, some 200, some (.error (.str "SyntaxError"))⟩)
          (.num 1)).outcome ≠ .ok v)
      ∧ (∀ t : Thrown,
        (getUserData (respondWith ⟨true, some 200, some (.error (.str "SyntaxError"))⟩)
          (.num 1)).outcome = .error t → t = .raised (.str "SyntaxError")) := by
  have hjson : ∀ response,
      respondWith ⟨true, some 200, some (.error (.str "SyntaxError"))⟩ (userUrl (.num 1))
        = .ok response → response.ok = true → response.json ≠ none := by
    intro response h _ hnone
    have h' : (⟨true, some 200, some (.error (.str "SyntaxError"))⟩ : Response) = response :=
      Except.ok.inj h
    rw [← h'] at hnone
    cases hnone
  have hchar := getUserData_outcome_characterised
    (respondWith ⟨true, some 200, some (.error (.str "SyntaxError"))⟩) (.num 1) hjson
  refine ⟨fun v hv => ?_, fun t ht => ?_⟩
  · obtain ⟨response, h, _, hj⟩ := (hchar.1 v).mp hv
    have h' : (⟨true, some 200, some (.error (.str "SyntaxError"))⟩ : Response) = response :=
      Except.ok.inj h
    rw [← h'] at hj
    cases hj
  · rcases (hchar.2.1 t).mp ht with
      ⟨e, he, _⟩ | ⟨response, h, hok, _⟩ | ⟨response, e, h, _, hj, rfl⟩
    · cases he
    · have h' : (⟨true, some 200, some (.error (.str "SyntaxError"))⟩ : Response)
          = response := Except.ok.inj h
      rw [← h'] at hok
      cases hok
    · have h' : (⟨true, some 200, some (.error (.str "SyntaxError"))⟩ : Response)
          = response := Except.ok.inj h
      rw [← h'] at hj
      injection hj with hj
      injection hj with hj
      rw [hj]

/-- C10: for two invocations that both receive a response whose ok flag is
false, with integer statuses `s₁` and `s₂` (safe integers, as every status code
is), whatever the identifiers, the transports and the rest of the responses:
the two error messages are equal exactly when `s₁ = s₂`; each message is
`Error: ` followed by the digits of the status and nothing else, and the status
is read back from it. -/
theorem getUserData_message_carries_status (fetch₁ fetch₂ : Fetch) (userId₁ userId₂ : UserId)
    (response₁ response₂ : Response) (s₁ s₂ : Int)
    (hfetch₁ : fetch₁ (userUrl userId₁) = .ok response₁)
    (hfetch₂ : fetch₂ (userUrl userId₂) = .ok response₂)
    (hok₁ : response₁.ok = false) (hok₂ : response₂.ok = false)
    (hstatus₁ : response₁.status = some s₁) (hstatus₂ : response₂.status = some s₂)
    (hs₁ : isSafeInteger s₁ = true) (hs₂ : isSafeInteger s₂ = true) :
    ((getUserData fetch₁ userId₁).failureMessage = (getUserData fetch₂ userId₂).failureMessage
        ↔ s₁ = s₂)
      ∧ (getUserData fetch₁ userId₁).failureMessage = some ("Error: " ++ decimal s₁)
      ∧ (getUserData fetch₁ userId₁).failureMessage.map statusOfMessage = some s₁ := by
  rw [getUserData_of_not_ok fetch₁ userId₁ response₁ hfetch₁ hok₁,
    getUserData_of_not_ok fetch₂ userId₂ response₂ hfetch₂ hok₂, hstatus₁, hstatus₂,
    statusToString_of_safe s₁ hs₁, statusToString_of_safe s₂ hs₂]
  refine ⟨⟨fun h => ?_, fun h => by rw [h]; rfl⟩, rfl, ?_⟩
  · have hmsg : "Error: " ++ decimal s₁ = "Error: " ++ decimal s₂ :=
      Option.some.inj h
    rw [← statusOfMessage_error s₁, hmsg, statusOfMessage_error s₂]
  · show some (statusOfMessage ("Error: " ++ decimal s₁)) = some s₁
    rw [statusOfMessage_error]

/-- The statuses 404 and 500, met by different identifiers and with different
bodies: the messages differ, that of the first is `Error: 404`, and 404 is read
back from it. -/
theorem getUserData_message_carries_status_witness :
    (getUserData (respondWith ⟨false, some 404, none⟩) (.num 1)).failureMessage
        ≠ (getUserData (respondWith ⟨false, some 500, some (.ok sampleUser)⟩)
            (.str "7")).failureMessage
      ∧ (getUserData (respondWith ⟨false, some 404, none⟩) (.num 1)).failureMessage
        = some "Error: 404"
      ∧ (getUserData (respondWith ⟨false, some 404, none⟩)
          (.num 1)).failureMessage.map statusOfMessage = some 404 :=
  ⟨fun h => absurd
      ((getUserData_message_carries_status (respondWith ⟨false, some 404, none⟩)
        (respondWith ⟨false, some 500, some (.ok sampleUser)⟩) (.num 1) (.str "7")
        ⟨false, some 404, none⟩ ⟨false, some 500, some (.ok sampleUser)⟩ 404 500
        rfl rfl rfl rfl rfl rfl rfl rfl).1.mp h) (by decide),
   (getUserData_message_carries_status (respondWith ⟨false, some 404, none⟩)
      (respondWith ⟨false, some 500, some (.ok sampleUser)⟩) (.num 1) (.str "7")
      ⟨false, some 404, none⟩ ⟨false, some 500, some (.ok sampleUser)⟩ 404 500
      rfl rfl rfl rfl rfl rfl rfl rfl).2.1,
   (getUserData_message_carries_status (respondWith ⟨false, some 404, none⟩)
      (respondWith ⟨false, some 500, some (.ok sampleUser)⟩) (.num 1) (.str "7")
      ⟨false, some 404, none⟩ ⟨false, some 500, some (.ok sampleUser)⟩ 404 500
      rfl rfl rfl rfl rfl rfl rfl rfl).2.2⟩

end UserApi
